import Mathlib

/-!
# Verification of the MCP HTTP wrapper (`src/http_server.py`)

A shallow embedding of the single-file Python program that wraps a
stdio-based MCP server behind an HTTP REST API.  The embedding follows the
source closely:

* Python dictionaries used as string-keyed maps (`os.environ`, the `env`
  overlay, the YAML configuration) are modelled extensionally as functions
  `String → Option α`; `dict.update` becomes a pointwise right-biased merge,
  `d[k] = v` becomes a pointwise single-key override.  This matches the
  observable lookup semantics of CPython dictionaries.
* The external world (whether the subprocess launch, the transport open, the
  session construction or the `initialize` handshake fails; what an
  established session answers; how long a scheduled coroutine takes) is
  supplied as explicit oracle arguments, so each Python function becomes a
  pure Lean function of the state and the oracle.
* Exceptions become `Option PyErr` / `Except PyErr α` results; `raise`
  propagation is explicit in each definition.
-/

/-- Python `dict` with string keys, modelled extensionally by its lookup
function (`d k = some v` iff `k in d` with value `v`). -/
def Dict (α : Type) : Type := String → Option α

/-- The empty dictionary `{}`. -/
def Dict.empty {α : Type} : Dict α := fun _ => none

/-- `d[k] = v` : single-key assignment. -/
def Dict.set {α : Type} (d : Dict α) (k : String) (v : α) : Dict α :=
  fun q => if q = k then some v else d q

/-- `base.update(ov)` : for every key present in `ov` the value from `ov`
wins, every other key keeps its value from `base` (CPython
`dict.update`, observed through lookups). -/
def Dict.update {α : Type} (base ov : Dict α) : Dict α :=
  fun q => (ov q).orElse (fun _ => base q)

/-- The steps of the connect sequence in `MCPClient._ensure_connection` at
which an exception can be raised.  `stdioOpen` covers the subprocess launch
together with the opening of the stdio transport (both happen inside
`stdio_client(...).__aenter__`), `sessionCreate` is the
`ClientSession(read, write)` context entry, `handshake` is
`self.session.initialize()`. -/
inductive ConnectStep where
  | stdioOpen
  | sessionCreate
  | handshake
deriving DecidableEq, Repr

/-- The async resources entered on the `AsyncExitStack` during the connect
sequence. -/
inductive Resource where
  | stdioTransport
  | clientSession
deriving DecidableEq, Repr

/-- Exceptions that the embedded fragments can raise. -/
inductive PyErr where
  /-- the exception raised at the given step of the connect sequence -/
  | connectError : ConnectStep → PyErr
  /-- a failure of an established session's `list_tools` / `call_tool` call -/
  | sessionError : String → PyErr
  /-- an exception raised by `AsyncExitStack.aclose()` -/
  | acloseError : PyErr
  /-- `concurrent.futures.TimeoutError` from `future.result(timeout=...)` -/
  | timeoutError : PyErr
deriving DecidableEq, Repr

/-- The string `str(e)` used by the HTTP handlers when serialising an
exception into the JSON error body. -/
def PyErr.str : PyErr → String
  | .connectError _ => "Failed to initialize MCP session"
  | .sessionError m => m
  | .acloseError => "aclose failed"
  | .timeoutError => ""

/-- The `ClientSession` object held in `MCPClient.session`; `initialized`
records whether `initialize()` has completed on it. -/
structure SessionState where
  initialized : Bool
deriving DecidableEq, Repr

/-- The state of the `MCPClient` instance: the static configuration
(`command`, `args`, `env`) and the mutable connection state (`session`,
`exit_stack`).  The exit stack is modelled by the list of resources entered
on it, in order of entry. -/
structure MCPClient where
  command : String
  args : List String
  env : Dict String
  session : Option SessionState
  exit_stack : Option (List Resource)

/-- Oracle for one run of the connect sequence: which step, if any, raises,
and whether the `except` handler's own `self.exit_stack.aclose()` raises in
turn (the transport and session `__aexit__`s are black-box collaborators
and may fail). -/
structure ConnectWorld where
  failAt : Option ConnectStep
  acloseFails : Bool
deriving DecidableEq, Repr

/-- Observable side effects of one `_ensure_connection` call: how many
subprocess launches were started, the environment handed to
`StdioServerParameters` (if a launch happened), and the resources released
by the `except` handler's `aclose()`, in release order. -/
structure ConnEffects where
  launches : Nat
  launchedEnv : Option (Dict String)
  released : List Resource

/-- The `except Exception` handler of `_ensure_connection`
(src/http_server.py:130-136), run in the state `c` reached when the step
`s` raised.  `if self.exit_stack:` is always truthy here (the stack was
assigned at line 112).  `await self.exit_stack.aclose()` unwinds every
entered resource in reverse order of entry even when one of the exits
raises.  There is no `try/finally`: when `aclose()` itself raises
(`acloseFails`), the two resets and the `raise` are skipped — the state is
left as it was and the `aclose` exception propagates instead of the
original one; only when `aclose()` returns are `self.exit_stack` and
`self.session` set to `None` and the original exception re-raised. -/
def connectFail (c : MCPClient) (server_env : Dict String)
    (s : ConnectStep) (acloseFails : Bool) :
    MCPClient × ConnEffects × Option PyErr :=
  let stack := c.exit_stack.getD []
  if acloseFails then
    (c,
     { launches := 1, launchedEnv := some server_env,
       released := stack.reverse },
     some .acloseError)
  else
    ({ c with session := none, exit_stack := none },
     { launches := 1, launchedEnv := some server_env,
       released := stack.reverse },
     some (.connectError s))

/-- `MCPClient._ensure_connection` (src/http_server.py:95-136).  If a
session exists it does nothing.  Otherwise it overlays `os.environ`
(`procEnv`) with `self.env`, assigns a fresh `AsyncExitStack` to
`self.exit_stack` (line 112, before the `try`), then enters `stdio_client`
(launching the subprocess), enters `ClientSession` (assigning
`self.session`), and runs `initialize()`; an exception at any of these
steps triggers the `except` handler (`connectFail`) in the state reached
at that point. -/
def ensure_connection (procEnv : Dict String) (c : MCPClient)
    (w : ConnectWorld) : MCPClient × ConnEffects × Option PyErr :=
  match c.session with
  | some _ => (c, { launches := 0, launchedEnv := none, released := [] }, none)
  | none =>
    let server_env := Dict.update procEnv c.env
    let c0 := { c with exit_stack := some [] }
    if w.failAt = some .stdioOpen then
      connectFail c0 server_env .stdioOpen w.acloseFails
    else
      let c1 := { c0 with exit_stack := some [.stdioTransport] }
      if w.failAt = some .sessionCreate then
        connectFail c1 server_env .sessionCreate w.acloseFails
      else
        let c2 := { c1 with
                    session := some { initialized := false },
                    exit_stack := some [.stdioTransport, .clientSession] }
        if w.failAt = some .handshake then
          connectFail c2 server_env .handshake w.acloseFails
        else
          ({ c2 with session := some { initialized := true } },
           { launches := 1, launchedEnv := some server_env, released := [] },
           none)

/-- `MCPClient.list_tools` (src/http_server.py:138-142): ensure the
connection, then issue the session's tool-enumeration request, whose
outcome `opResult` is supplied by the oracle. -/
def MCPClient.list_tools (procEnv : Dict String) (c : MCPClient)
    (w : ConnectWorld) (opResult : Except PyErr (List String)) :
    MCPClient × ConnEffects × Except PyErr (List String) :=
  match ensure_connection procEnv c w with
  | (c1, eff, some e) => (c1, eff, .error e)
  | (c1, eff, none) => (c1, eff, opResult)

/-- `MCPClient.call_tool` (src/http_server.py:144-148): ensure the
connection, then issue the session's tool-invocation request with the given
name and arguments; the session's answer `opResult` is supplied by the
oracle. -/
def MCPClient.call_tool (procEnv : Dict String) (c : MCPClient)
    (w : ConnectWorld) (tool_name : String) (arguments : List (String × String))
    (opResult : Except PyErr (List String)) :
    MCPClient × ConnEffects × Except PyErr (List String) :=
  match ensure_connection procEnv c w with
  | (c1, eff, some e) => (c1, eff, .error e)
  | (c1, eff, none) => (c1, eff, opResult)

/-- `MCPClient.close` (src/http_server.py:150-155).  `acloseFails` is the
oracle for whether `self.exit_stack.aclose()` raises.  The Python body is
`if self.exit_stack: await self.exit_stack.aclose()` followed by the two
resets; there is no `try/finally`, so when `aclose()` raises, the resets are
skipped and the exception propagates with the state unchanged.
`AsyncExitStack.aclose` unwinds every entered resource (in reverse order of
entry) even when one of the exits raises, so the released list is the full
reversed stack in both cases. -/
def MCPClient.close (c : MCPClient) (acloseFails : Bool) :
    MCPClient × List Resource × Option PyErr :=
  match c.exit_stack with
  | some stack =>
    if acloseFails then
      (c, stack.reverse, some .acloseError)
    else
      ({ c with session := none, exit_stack := none }, stack.reverse, none)
  | none =>
    ({ c with session := none, exit_stack := none }, [], none)

/-- The timeout (in seconds) passed to `future.result` in `run_async`
(src/http_server.py:41). -/
def RUN_ASYNC_TIMEOUT : Nat := 120

/-- Oracle for one coroutine submitted to the background event loop: how
many seconds it takes to complete, and its outcome (a value or a raised
exception). -/
structure AsyncOp (α : Type) where
  completionTime : Nat
  outcome : Except PyErr α

/-- What `run_async` hands back to the calling thread: the returned value or
re-raised exception, and whether the in-flight coroutine was cancelled by
`run_async`. -/
structure RunAsyncResult (α : Type) where
  result : Except PyErr α
  cancelledInFlight : Bool

/-- `run_async` (src/http_server.py:37-41): submit the coroutine to the
persistent loop with `asyncio.run_coroutine_threadsafe` and block on
`future.result(timeout=120)`.  Following the `concurrent.futures` contract:
if the coroutine finishes within the timeout its value is returned or its
exception re-raised; otherwise `TimeoutError` is raised.  The code never
calls `future.cancel()`, so the coroutine is never cancelled. -/
def run_async {α : Type} (op : AsyncOp α) : RunAsyncResult α :=
  if op.completionTime ≤ RUN_ASYNC_TIMEOUT then
    { result := op.outcome, cancelledInFlight := false }
  else
    { result := .error .timeoutError, cancelledInFlight := false }

/-- A value stored in the `server` section of the configuration
dictionary. -/
inductive ConfigValue where
  | str : String → ConfigValue
  | strList : List String → ConfigValue
  | natVal : Nat → ConfigValue
  | envMap : Dict String → ConfigValue

/-- The `server` section: a dictionary of configuration values. -/
def ServerMap : Type := Dict ConfigValue

/-- The top-level configuration dictionary, whose only key of interest is
`server`. -/
def TopMap : Type := Dict ServerMap

/-- The hardcoded default `server` section of `load_config`
(src/http_server.py:49-57). -/
def serverDefaults : ServerMap :=
  ((((Dict.empty.set "name" (.str "generic-mcp-server")).set
      "command" (.str "python")).set
      "args" (.strList ["server.py"])).set
      "env" (.envMap Dict.empty)).set
      "port" (.natVal 3050)

/-- `config['server'][k] = v`.  Inside `load_config` the `server` key is
always present (the defaults define it and `dict.update` never removes a
key), so the `none` branch is unreachable there; Python would raise
`KeyError` in that case. -/
def setServerField (t : TopMap) (k : String) (v : ConfigValue) : TopMap :=
  match t "server" with
  | some sm => t.set "server" (sm.set k v)
  | none => t

/-- `load_config` (src/http_server.py:44-79).  `file` is the parsed content
of `config.yml`: `none` when the file is missing, fails to parse, or parses
to a falsy value (then `config.update` is skipped); otherwise the top-level
mapping.  `envCmd`, `envArgs`, `envPort` are `MCP_COMMAND`, `MCP_ARGS`
(already `json.loads`-parsed to a string array) and `PORT` (already
`int`-converted).  Note the file overlay is a single top-level
`config.update(loaded_config)`: a `server` mapping in the file replaces the
default `server` mapping wholesale. -/
def load_config (file : Option TopMap) (envCmd : Option String)
    (envArgs : Option (List String)) (envPort : Option Nat) : TopMap :=
  let config : TopMap := Dict.empty.set "server" serverDefaults
  let config := match file with
    | some m => config.update m
    | none => config
  let config := match envCmd with
    | some v => setServerField config "command" (.str v)
    | none => config
  let config := match envArgs with
    | some v => setServerField config "args" (.strList v)
    | none => config
  let config := match envPort with
    | some v => setServerField config "port" (.natVal v)
    | none => config
  config

/-- One entry of the `tools` array built by the `/mcp/list_tools` handler. -/
structure ToolJson where
  name : String
  description : String
  inputSchema : String
deriving DecidableEq, Repr

/-- A tool as returned by the session's `list_tools` call:
`description` may be `None`. -/
structure ToolInfo where
  name : String
  description : Option String
  inputSchema : String
deriving DecidableEq, Repr

/-- One entry of the `content` array built by the `/mcp/call_tool` handler. -/
structure ContentJson where
  type : String
  text : String
deriving DecidableEq, Repr

/-- A content item of a session `call_tool` result: `text` is present only
when the object has a `text` attribute, `.reprStr` stands for `str(content)`. -/
structure ContentItem where
  type : String
  text : Option String
  reprStr : String
deriving DecidableEq, Repr

/-- The JSON body of an HTTP response produced by the handlers. -/
inductive RespBody where
  /-- `{"error": msg}` -/
  | errJson : String → RespBody
  /-- `{"tools": [...]}` -/
  | toolsJson : List ToolJson → RespBody
  /-- `{"content": [...]}` -/
  | contentJson : List ContentJson → RespBody
deriving DecidableEq, Repr

/-- An HTTP response: status code and JSON body. -/
structure HttpResponse where
  status : Nat
  body : RespBody
deriving DecidableEq, Repr

/-- The `/mcp/list_tools` handler (src/http_server.py:176-196).  `op` is the
coroutine `mcp_client.list_tools()` as submitted to `run_async`, with its
completion time and outcome.  On success each tool is serialised with
`tool.description or ""`; every exception (session failure or the bridge's
timeout) is caught and serialised as a 500 error body. -/
def list_tools_handler (op : AsyncOp (List ToolInfo)) : HttpResponse :=
  match (run_async op).result with
  | .ok tools =>
    { status := 200,
      body := .toolsJson (tools.map fun t =>
        { name := t.name, description := t.description.getD "",
          inputSchema := t.inputSchema }) }
  | .error e => { status := 500, body := .errJson e.str }

/-- The JSON body of a `/mcp/call_tool` request, as read by `request.json`
and the two `data.get` calls: an optional `name` and an optional
`arguments` object (modelled as an association list). -/
structure CallToolBody where
  name : Option String
  arguments : Option (List (String × String))
deriving DecidableEq, Repr

/-- Python truthiness test `not tool_name` for `tool_name = data.get('name')`:
true when the key is absent (`None`) or the string is empty. -/
def pyFalsy : Option String → Bool
  | none => true
  | some s => s == ""

/-- What the `/mcp/call_tool` handler submitted to the Session Manager:
whether `run_async(mcp_client.call_tool(...))` ran at all, and with which
name and arguments. -/
structure CallToolEffect where
  submitted : Bool
  submittedName : Option String
  submittedArgs : Option (List (String × String))
deriving DecidableEq, Repr

/-- The `/mcp/call_tool` handler (src/http_server.py:198-224).  Reads
`name` and `arguments` (defaulting to `{}`) from the body; answers 400
before touching the Session Manager when the name is absent or empty;
otherwise submits `mcp_client.call_tool(tool_name, tool_args)` through
`run_async` (outcome supplied by `op`) and serialises the result, catching
every exception into a 500 error body. -/
def call_tool_handler (body : CallToolBody) (op : AsyncOp (List ContentItem)) :
    HttpResponse × CallToolEffect :=
  let tool_name := body.name
  let tool_args := body.arguments.getD []
  if pyFalsy tool_name then
    ({ status := 400, body := .errJson "Tool name is required" },
     { submitted := false, submittedName := none, submittedArgs := none })
  else
    match (run_async op).result with
    | .ok content =>
      ({ status := 200,
         body := .contentJson (content.map fun c =>
           { type := c.type, text := c.text.getD c.reprStr }) },
       { submitted := true, submittedName := tool_name,
         submittedArgs := some tool_args })
    | .error e =>
      ({ status := 500, body := .errJson e.str },
       { submitted := true, submittedName := tool_name,
         submittedArgs := some tool_args })

/-- The resources the connect sequence has entered on the exit stack before
reaching the given step (order of entry). -/
def acquiredBefore : ConnectStep → List Resource
  | .stdioOpen => []
  | .sessionCreate => [.stdioTransport]
  | .handshake => [.stdioTransport, .clientSession]

/-- The `server` section in effect right after the file overlay of
`load_config`: the file's own `server` mapping when the file defines one
(wholesale replacement by `config.update`), the hardcoded defaults
otherwise. -/
def fileServer (file : Option TopMap) : ServerMap :=
  match file with
  | none => serverDefaults
  | some m => (m "server").getD serverDefaults

/-- The `server` section of a top-level configuration dictionary. -/
def serverSection (t : TopMap) : ServerMap :=
  (t "server").getD Dict.empty

/-- A freshly constructed client (as built at src/http_server.py:158-162
with the default configuration). -/
def freshClient : MCPClient :=
  { command := "python", args := ["server.py"], env := Dict.empty,
    session := none, exit_stack := none }

/-- A client after a successful `_ensure_connection`. -/
def connectedClient : MCPClient :=
  { command := "python", args := ["server.py"], env := Dict.empty,
    session := some { initialized := true },
    exit_stack := some [.stdioTransport, .clientSession] }

/-- A concrete process environment, standing for `os.environ`. -/
def procEnv0 : Dict String :=
  (Dict.empty.set "PATH" "/usr/bin").set "HOME" "/root"

/-- A concrete configuration-supplied `env` overlay sharing the key `PATH`
with `procEnv0`. -/
def cfgEnv0 : Dict String := Dict.empty.set "PATH" "/opt/bin"

/-- A fresh client configured with the overlay `cfgEnv0`. -/
def envClient : MCPClient :=
  { command := "python", args := ["server.py"], env := cfgEnv0,
    session := none, exit_stack := none }

/-- The parsed content of a `config.yml` that reads
`server: { command: node }` : a partial `server` mapping. -/
def partialFileConfig : TopMap :=
  Dict.empty.set "server" (Dict.empty.set "command" (.str "node"))

/-- C1 counterexample: a handshake failure on a fresh client whose
`except`-handler `aclose()` raises in turn does not reset the state and
does not re-raise the original exception: `session` stays set (to the
uninitialized session assigned at line 122), `exit_stack` stays set, and
the `aclose` exception propagates instead of the original — refuting the
claim that every failed connect attempt ends reset and re-raised. -/
theorem ensure_connection_aclose_failure_keeps_session :
    ¬ ((ensure_connection Dict.empty freshClient
          { failAt := some .handshake, acloseFails := true }).1.session =
            none ∧
       (ensure_connection Dict.empty freshClient
          { failAt := some .handshake, acloseFails := true }).1.exit_stack =
            none ∧
       (ensure_connection Dict.empty freshClient
          { failAt := some .handshake, acloseFails := true }).2.2 =
            some (.connectError .handshake)) := by
  intro h
  have h1 := h.1
  simp [ensure_connection, freshClient, connectFail, Dict.empty] at h1

/-- C1 amended: if `_ensure_connection` fails at any step of the connect
sequence, the `except` handler attempts to release every resource entered
on the exit stack so far, in reverse order of acquisition.  When the
handler's `aclose()` succeeds, the state is reset so that both `session`
and `exit_stack` are `None` and the original exception is re-raised: the
resulting state equals the clean, never-connected state with the same
configuration, so a subsequent `_ensure_connection` starts as a first-ever
call would.  But when `aclose()` itself raises — there is no `try/finally`
— the resets are skipped and the `aclose` exception propagates instead of
the original: `exit_stack` keeps the entered resources, and after a
handshake failure `session` remains set to an uninitialized session. -/
theorem ensure_connection_failure_cleanup_amended (procEnv : Dict String)
    (c : MCPClient) (w : ConnectWorld) (s : ConnectStep)
    (h0 : c.session = none) (hf : w.failAt = some s) :
    (ensure_connection procEnv c w).2.1.released =
      (acquiredBefore s).reverse ∧
    (w.acloseFails = false →
      (ensure_connection procEnv c w).1 =
        { command := c.command, args := c.args, env := c.env,
          session := none, exit_stack := none } ∧
      (ensure_connection procEnv c w).2.2 = some (.connectError s)) ∧
    (w.acloseFails = true →
      (ensure_connection procEnv c w).2.2 = some .acloseError ∧
      (ensure_connection procEnv c w).1.exit_stack =
        some (acquiredBefore s) ∧
      (s = .handshake →
        (ensure_connection procEnv c w).1.session =
          some { initialized := false })) := by
  rcases w with ⟨fa, af⟩
  cases hf
  cases s <;> cases af <;>
    simp [ensure_connection, h0, connectFail, acquiredBefore]

/-- Witness for the amended C1 at a concrete client and a handshake
failure, once with a succeeding release and once with a raising one. -/
theorem ensure_connection_failure_cleanup_amended_witness :
    ((ensure_connection Dict.empty freshClient
        { failAt := some .handshake, acloseFails := false }).1 =
      { command := "python", args := ["server.py"], env := Dict.empty,
        session := none, exit_stack := none } ∧
     (ensure_connection Dict.empty freshClient
        { failAt := some .handshake, acloseFails := false }).2.2 =
      some (.connectError .handshake)) ∧
    ((ensure_connection Dict.empty freshClient
        { failAt := some .handshake, acloseFails := true }).2.2 =
      some .acloseError ∧
     (ensure_connection Dict.empty freshClient
        { failAt := some .handshake, acloseFails := true }).1.exit_stack =
      some [.stdioTransport, .clientSession] ∧
     (ensure_connection Dict.empty freshClient
        { failAt := some .handshake, acloseFails := true }).1.session =
      some { initialized := false }) :=
  ⟨(ensure_connection_failure_cleanup_amended Dict.empty freshClient
      { failAt := some .handshake, acloseFails := false } .handshake
      rfl rfl).2.1 rfl,
   ⟨((ensure_connection_failure_cleanup_amended Dict.empty freshClient
       { failAt := some .handshake, acloseFails := true } .handshake
       rfl rfl).2.2 rfl).1,
    ((ensure_connection_failure_cleanup_amended Dict.empty freshClient
       { failAt := some .handshake, acloseFails := true } .handshake
       rfl rfl).2.2 rfl).2.1,
    ((ensure_connection_failure_cleanup_amended Dict.empty freshClient
       { failAt := some .handshake, acloseFails := true } .handshake
       rfl rfl).2.2 rfl).2.2 rfl⟩⟩

/-- C2: when no session exists and the connect sequence succeeds, the first
`list_tools` (or `call_tool`) call triggers exactly one subprocess launch
and leaves a live session; and `_ensure_connection` is a strict no-op
(zero launches, state returned unchanged, no exception) whenever a session
is already set. -/
theorem first_call_single_launch (procEnv : Dict String) (c : MCPClient)
    (w : ConnectWorld) (opL : Except PyErr (List String))
    (h0 : c.session = none) (hs : w.failAt = none) :
    ((MCPClient.list_tools procEnv c w opL).2.1.launches = 1 ∧
      ((MCPClient.list_tools procEnv c w opL).1.session).isSome = true) ∧
    (∀ (nm : String) (args : List (String × String))
        (opC : Except PyErr (List String)),
      (MCPClient.call_tool procEnv c w nm args opC).2.1.launches = 1) ∧
    (∀ (c2 : MCPClient) (w2 : ConnectWorld), (c2.session).isSome = true →
      ensure_connection procEnv c2 w2 =
        (c2, { launches := 0, launchedEnv := none, released := [] }, none)) := by
  refine ⟨?_, ?_, ?_⟩
  · simp [MCPClient.list_tools, ensure_connection, h0, hs]
  · intro nm args opC
    simp [MCPClient.call_tool, ensure_connection, h0, hs]
  · intro c2 w2 h2
    obtain ⟨st, hst⟩ := Option.isSome_iff_exists.mp h2
    simp [ensure_connection, hst]

/-- Witness for C2 at a concrete fresh client (first call) and a concrete
connected client (subsequent call). -/
theorem first_call_single_launch_witness :
    (MCPClient.list_tools Dict.empty freshClient
        { failAt := none, acloseFails := false } (.ok [])).2.1.launches = 1 ∧
    ensure_connection Dict.empty connectedClient
        { failAt := none, acloseFails := false } =
      (connectedClient,
       { launches := 0, launchedEnv := none, released := [] }, none) :=
  ⟨(first_call_single_launch Dict.empty freshClient
      { failAt := none, acloseFails := false } (.ok []) rfl rfl).1.1,
   (first_call_single_launch Dict.empty freshClient
      { failAt := none, acloseFails := false } (.ok []) rfl rfl).2.2
     connectedClient { failAt := none, acloseFails := false } rfl⟩

/-- C3 counterexample: at a connected client whose `aclose()` raises,
`close` leaves the state untouched — it does not reset `session` and
`exit_stack` to `None`, contradicting the claim that the state is cleared
"regardless of whether the scoped resource release succeeds". -/
theorem close_aclose_failure_keeps_state :
    ¬ (((connectedClient.close true).1.session = none) ∧
       ((connectedClient.close true).1.exit_stack = none)) := by
  intro h
  have h1 := h.1
  simp [MCPClient.close, connectedClient] at h1

/-- C3 amended: `close` resets `session` and `exit_stack` to `None` and
raises nothing whenever `aclose()` does not raise (or no exit stack is
held, in which case nothing is released); but when an exit stack is held
and `aclose()` raises, the exception propagates out of `close` and the
state is left unchanged (the resets are skipped). -/
theorem close_resets_state_amended (c : MCPClient) :
    ((MCPClient.close c false).1.session = none ∧
     (MCPClient.close c false).1.exit_stack = none ∧
     (MCPClient.close c false).2.2 = none) ∧
    (∀ stack, c.exit_stack = some stack →
      MCPClient.close c true = (c, stack.reverse, some .acloseError)) ∧
    (c.exit_stack = none →
      MCPClient.close c true =
        ({ c with session := none, exit_stack := none }, [], none)) := by
  refine ⟨?_, ?_, ?_⟩
  · cases hc : c.exit_stack <;> simp [MCPClient.close, hc]
  · intro stack hc
    simp [MCPClient.close, hc]
  · intro hc
    simp [MCPClient.close, hc]

/-- Witness for the amended C3 at a concrete connected client. -/
theorem close_resets_state_amended_witness :
    (MCPClient.close connectedClient false).1.session = none ∧
    MCPClient.close connectedClient true =
      (connectedClient, [.clientSession, .stdioTransport],
       some .acloseError) :=
  ⟨(close_resets_state_amended connectedClient).1.1,
   (close_resets_state_amended connectedClient).2.1
     [.stdioTransport, .clientSession] rfl⟩

/-- C5: `run_async` waits on the submitted operation with the fixed
120-second bound: when the operation completes within the bound its value
is returned or its exception re-raised in the caller, otherwise a
`TimeoutError` is raised; in neither case does `run_async` cancel the
in-flight operation. -/
theorem run_async_timeout_contract {α : Type} (op : AsyncOp α) :
    RUN_ASYNC_TIMEOUT = 120 ∧
    (op.completionTime ≤ RUN_ASYNC_TIMEOUT →
      (run_async op).result = op.outcome ∧
      (run_async op).cancelledInFlight = false) ∧
    (RUN_ASYNC_TIMEOUT < op.completionTime →
      (run_async op).result = .error .timeoutError ∧
      (run_async op).cancelledInFlight = false) := by
  refine ⟨rfl, ?_, ?_⟩
  · intro h
    simp [run_async, h]
  · intro h
    simp [run_async, Nat.not_le.mpr h]

/-- Witness for C5 at a concrete operation that overruns the bound. -/
theorem run_async_timeout_contract_witness :
    (run_async { completionTime := 121,
                 outcome := (.ok 7 : Except PyErr Nat) }).result =
      .error .timeoutError ∧
    (run_async { completionTime := 121,
                 outcome := (.ok 7 : Except PyErr Nat) }).cancelledInFlight =
      false :=
  (run_async_timeout_contract
    { completionTime := 121, outcome := (.ok 7 : Except PyErr Nat) }).2.2
    (by decide)

/-- C6: a `/mcp/call_tool` request whose body has no `name` key or an empty
name is answered 400 with body `{"error": "Tool name is required"}`, and
nothing is submitted to the Session Manager (no `run_async` of
`mcp_client.call_tool`, hence no connection attempt). -/
theorem call_tool_missing_name_400 (body : CallToolBody)
    (op : AsyncOp (List ContentItem))
    (h : body.name = none ∨ body.name = some "") :
    (call_tool_handler body op).1 =
      { status := 400, body := .errJson "Tool name is required" } ∧
    (call_tool_handler body op).2 =
      { submitted := false, submittedName := none, submittedArgs := none } := by
  rcases h with h | h <;> simp [call_tool_handler, pyFalsy, h]

/-- Witness for C6 at the empty body `{}`. -/
theorem call_tool_missing_name_400_witness :
    (call_tool_handler { name := none, arguments := none }
        { completionTime := 0, outcome := .ok [] }).1 =
      { status := 400, body := .errJson "Tool name is required" } ∧
    (call_tool_handler { name := none, arguments := none }
        { completionTime := 0, outcome := .ok [] }).2 =
      { submitted := false, submittedName := none, submittedArgs := none } :=
  call_tool_missing_name_400 { name := none, arguments := none }
    { completionTime := 0, outcome := .ok [] } (Or.inl rfl)

/-- C7: every failure surfaced by `run_async` (a Session Manager exception
or the bridge's `TimeoutError`) is converted by the `/mcp/list_tools` and
`/mcp/call_tool` handlers into a well-formed JSON error body with status
500; and both handlers are total — every request receives a response with
status 200, 400 or 500 (the 400 only for the invalid-request case), so no
failure escapes a handler and the process keeps serving. -/
theorem handlers_convert_failures_to_json (opT : AsyncOp (List ToolInfo))
    (body : CallToolBody) (opC : AsyncOp (List ContentItem)) (e eC : PyErr)
    (hT : (run_async opT).result = .error e)
    (hC : (run_async opC).result = .error eC)
    (hname : pyFalsy body.name = false) :
    list_tools_handler opT = { status := 500, body := .errJson e.str } ∧
    (call_tool_handler body opC).1 =
      { status := 500, body := .errJson eC.str } ∧
    (∀ (o : AsyncOp (List ToolInfo)),
      (list_tools_handler o).status = 200 ∨
      (list_tools_handler o).status = 500) ∧
    (∀ (b : CallToolBody) (o : AsyncOp (List ContentItem)),
      ((call_tool_handler b o).1.status = 200 ∨
       (call_tool_handler b o).1.status = 400 ∨
       (call_tool_handler b o).1.status = 500) ∧
      (pyFalsy b.name = true → (call_tool_handler b o).1.status = 400)) := by
  refine ⟨?_, ?_, ?_, ?_⟩
  · simp [list_tools_handler, hT]
  · simp [call_tool_handler, hname, hC]
  · intro o
    unfold list_tools_handler
    cases (run_async o).result <;> simp
  · intro b o
    constructor
    · unfold call_tool_handler
      by_cases hb : pyFalsy b.name
      · simp [hb]
      · cases (run_async o).result <;> simp [hb]
    · intro hb
      simp [call_tool_handler, hb]

/-- Witness for C7 at a concrete session failure and a concrete timeout. -/
theorem handlers_convert_failures_to_json_witness :
    list_tools_handler
        { completionTime := 0, outcome := .error (.sessionError "boom") } =
      { status := 500, body := .errJson "boom" } ∧
    (call_tool_handler { name := some "echo", arguments := none }
        { completionTime := 121, outcome := .ok [] }).1 =
      { status := 500, body := .errJson PyErr.timeoutError.str } :=
  ⟨(handlers_convert_failures_to_json
      { completionTime := 0, outcome := .error (.sessionError "boom") }
      { name := some "echo", arguments := none }
      { completionTime := 121, outcome := .ok [] }
      (.sessionError "boom") .timeoutError rfl rfl (by decide)).1,
   (handlers_convert_failures_to_json
      { completionTime := 0, outcome := .error (.sessionError "boom") }
      { name := some "echo", arguments := none }
      { completionTime := 121, outcome := .ok [] }
      (.sessionError "boom") .timeoutError rfl rfl (by decide)).2.1⟩

/-- C10: a `/mcp/call_tool` request with a non-empty `name` and no
`arguments` key invokes the tool with the empty mapping `{}` as arguments
instead of failing. -/
theorem call_tool_default_empty_arguments (body : CallToolBody)
    (op : AsyncOp (List ContentItem)) (n : String)
    (h1 : body.name = some n) (h2 : n ≠ "") (h3 : body.arguments = none) :
    (call_tool_handler body op).2.submitted = true ∧
    (call_tool_handler body op).2.submittedName = some n ∧
    (call_tool_handler body op).2.submittedArgs = some [] := by
  have hb : pyFalsy body.name = false := by
    simp [pyFalsy, h1]
    exact h2
  rw [h1] at hb
  unfold call_tool_handler
  cases (run_async op).result <;> simp [hb, h1, h3]

/-- Witness for C10 at a concrete body `{"name": "echo"}`. -/
theorem call_tool_default_empty_arguments_witness :
    (call_tool_handler { name := some "echo", arguments := none }
        { completionTime := 0, outcome := .ok [] }).2.submitted = true ∧
    (call_tool_handler { name := some "echo", arguments := none }
        { completionTime := 0, outcome := .ok [] }).2.submittedName =
      some "echo" ∧
    (call_tool_handler { name := some "echo", arguments := none }
        { completionTime := 0, outcome := .ok [] }).2.submittedArgs =
      some [] :=
  call_tool_default_empty_arguments
    { name := some "echo", arguments := none }
    { completionTime := 0, outcome := .ok [] } "echo" rfl (by decide) rfl

/-- C9: when `_ensure_connection` launches the subprocess, the environment
handed to `StdioServerParameters` is `os.environ.copy()` updated with the
configured `env`: for every key in the configured mapping the configured
value wins, and every process-environment key absent from the configured
mapping is preserved unchanged. -/
theorem ensure_connection_env_overlay (procEnv : Dict String)
    (c : MCPClient) (w : ConnectWorld) (h : c.session = none) :
    (ensure_connection procEnv c w).2.1.launchedEnv =
      some (Dict.update procEnv c.env) ∧
    (∀ k v, c.env k = some v → Dict.update procEnv c.env k = some v) ∧
    (∀ k, c.env k = none → Dict.update procEnv c.env k = procEnv k) := by
  refine ⟨?_, ?_, ?_⟩
  · rcases w with ⟨fa, af⟩
    rcases fa with _ | s
    · simp [ensure_connection, h, connectFail]
    · cases s <;> cases af <;> simp [ensure_connection, h, connectFail]
  · intro k v hkv
    simp [Dict.update, hkv, Option.orElse]
  · intro k hk
    simp [Dict.update, hk, Option.orElse]

/-- Witness for C9 at a concrete process environment and overlay sharing
the key `PATH`. -/
theorem ensure_connection_env_overlay_witness :
    (ensure_connection procEnv0 envClient
        { failAt := none, acloseFails := false }).2.1.launchedEnv =
      some (Dict.update procEnv0 cfgEnv0) ∧
    Dict.update procEnv0 cfgEnv0 "PATH" = some "/opt/bin" ∧
    Dict.update procEnv0 cfgEnv0 "HOME" = some "/root" :=
  ⟨(ensure_connection_env_overlay procEnv0 envClient
      { failAt := none, acloseFails := false } rfl).1,
   (ensure_connection_env_overlay procEnv0 envClient
      { failAt := none, acloseFails := false } rfl).2.1 "PATH" "/opt/bin" rfl,
   (ensure_connection_env_overlay procEnv0 envClient
      { failAt := none, acloseFails := false } rfl).2.2 "HOME" rfl⟩

/-- C8 counterexample: with a `config.yml` that sets only
`server: { command: node }` and no environment overrides, the loaded
configuration does not keep the default `port` value 3050 — the file's
partial `server` mapping replaces the default `server` mapping wholesale
(`config.update` is a shallow top-level update), so `port` is absent
entirely, contradicting per-value override of the defaults. -/
theorem load_config_partial_file_drops_defaults :
    ¬ (serverSection (load_config (some partialFileConfig) none none none)
        "port" = some (.natVal 3050)) := by
  have h : serverSection (load_config (some partialFileConfig) none none none)
      "port" = none := rfl
  rw [h]
  intro hc
  cases hc

/-- C8 amended: precedence is per top-level key, not per field.  When
`config.yml` defines a `server` mapping it replaces the default `server`
mapping wholesale (fields it omits are dropped, not defaulted); when the
file is absent, unparsable or empty the hardcoded defaults are used.  The
environment variables `MCP_COMMAND`, `MCP_ARGS` and `PORT` then override
the `command`, `args` and `port` fields of whatever `server` mapping
resulted, and `name` is never overridden by the environment.  The result
is computed once by the pure `load_config`. -/
theorem load_config_precedence_amended (file : Option TopMap)
    (envCmd : Option String) (envArgs : Option (List String))
    (envPort : Option Nat) :
    serverSection (load_config file envCmd envArgs envPort) "command" =
      (match envCmd with
       | some v => some (.str v)
       | none => fileServer file "command") ∧
    serverSection (load_config file envCmd envArgs envPort) "args" =
      (match envArgs with
       | some v => some (.strList v)
       | none => fileServer file "args") ∧
    serverSection (load_config file envCmd envArgs envPort) "port" =
      (match envPort with
       | some v => some (.natVal v)
       | none => fileServer file "port") ∧
    serverSection (load_config file envCmd envArgs envPort) "name" =
      fileServer file "name" := by
  rcases file with _ | m
  · rcases envCmd with _ | vc <;> rcases envArgs with _ | va <;>
      rcases envPort with _ | vp <;>
      simp [load_config, serverSection, setServerField, fileServer,
        Dict.update, Dict.set, Dict.empty, Option.orElse, serverDefaults]
  · rcases hm : m "server" with _ | sm <;>
      rcases envCmd with _ | vc <;> rcases envArgs with _ | va <;>
      rcases envPort with _ | vp <;>
      simp [load_config, serverSection, setServerField, fileServer,
        Dict.update, Dict.set, Dict.empty, hm, Option.orElse, serverDefaults]
